import Mathlib

/-!
# VisionCameraProxy (android/src/main/cpp/VisionCameraProxy.cpp)

A shallow embedding of the JSI host object `VisionCameraProxy` and of the host
functions it hands out, followed by theorems about its behaviour.

Conventions of the embedding:

* Every effectful C++ function becomes a function in the monad `M`, which
  threads the state of the outside world (`World`) and ends in one of three
  ways (`Outcome`): a value, a thrown C++ exception, or undefined behaviour.
* The Java object behind `_javaProxy`, the array buffer cache and the log are
  fields of `World`; every call that leaves the translation unit is also
  recorded, in order, in `World.calls`.
* JS numbers are restricted to integer values (view tags are integers).
-/

namespace vision

/-! ## Build configuration -/

/-- State of the preprocessor macro VISION_CAMERA_ENABLE_SKIA when the file is compiled. -/
inductive SkiaMacro where
  /-- The macro is not defined. -/
  | notDefined
  /-- The macro is defined and expands to the integer `value`. -/
  | defined (value : Int)
deriving DecidableEq, Repr

/-- Truth value of the directive `#if VISION_CAMERA_ENABLE_SKIA` (line 56):
an undefined identifier counts as 0. -/
def SkiaMacro.ifNonZero : SkiaMacro → Bool
  | .notDefined => false
  | .defined value => value != 0

/-- Truth value of the directive `#ifdef VISION_CAMERA_ENABLE_SKIA` (line 87). -/
def SkiaMacro.ifdef : SkiaMacro → Bool
  | .notDefined => false
  | .defined _ => true

/-! ## Values -/

/-- Values of the platform (JNI) side, as produced by the argument marshaller. -/
inductive JniValue where
  | null
  | bool (b : Bool)
  | number (n : Int)
  | string (s : String)
  | list (items : List JniValue)
  | map (entries : List (String × JniValue))

/-- The worklet context owned by the Java proxy: its two execution contexts,
each named by the identity of its `jsi::Runtime`. -/
structure WorkletContext where
  jsRuntime : Nat
  workletRuntime : Nat
deriving DecidableEq, Repr

/-- An `RNWorklet::JsiWorklet`: the JS function it wraps, named by identity. -/
structure JsiWorklet where
  closure : Nat
deriving DecidableEq, Repr

/-- A `JFrameProcessor` object: the worklet and the context it was created with. -/
structure JFrameProcessor where
  worklet : JsiWorklet
  context : WorkletContext
deriving DecidableEq, Repr

/-- A `JFrameProcessorPlugin` resolved by the platform: the name it was
registered under and the marshalled options it was initialised with. -/
structure JFrameProcessorPlugin where
  name : String
  options : List (String × JniValue)

/-- A `FrameProcessorPluginHostObject`: it stores the (possibly null) plugin
reference it was constructed with. -/
structure FrameProcessorPluginHostObject where
  plugin : Option JFrameProcessorPlugin

/-- The three lambdas that `VisionCameraProxy::get` wraps as host functions. -/
inductive HostFunctionBody where
  | setFrameProcessor
  | removeFrameProcessor
  | getFrameProcessorPlugin
deriving DecidableEq, Repr

/-- A `jsi::Value`. Objects are plain objects (a property list), arrays, JS
functions (named by identity), host functions and host objects. -/
inductive JsValue where
  | undefined
  | null
  | bool (b : Bool)
  | number (n : Int)
  | string (s : String)
  | object (props : List (String × JsValue))
  | array (items : List JsValue)
  | function (closure : Nat)
  | hostFunction (name : String) (paramCount : Nat) (body : HostFunctionBody)
  | hostObject (obj : FrameProcessorPluginHostObject)

/-- C++ exceptions that can leave the functions of this file. -/
inductive Thrown where
  /-- A `std::runtime_error` thrown by this file, with its `what()` text. -/
  | runtime_error (what : String)
  /-- A `jsi::JSError` thrown by this file, with its message. -/
  | JSError (message : String)
  /-- An exception raised inside a callee that is not part of this file;
  `origin` names the callee. -/
  | collaborator (origin : String)

/-! ## The outside world -/

/-- One entry of the array buffer cache: a wrapper cached for a native buffer
in one execution context. -/
structure BufferCacheEntry where
  runtime : Nat
  buffer : Nat
  wrapper : Nat
deriving DecidableEq, Repr

/-- Calls that leave the translation unit, as recorded in `World.calls`. -/
inductive Call where
  | androidLog (tag : String) (text : String)
  | invalidateArrayBufferCache (runtime : Nat)
  | createFrameProcessor (worklet : JsiWorklet) (context : WorkletContext)
  | setFrameProcessor (viewTag : Int) (frameProcessor : JFrameProcessor)
  | removeFrameProcessor (viewTag : Int)
  | convertJSIObjectToJNIMap (object : JsValue)
  | getFrameProcessorPlugin (name : String) (options : List (String × JniValue))

/-- Everything outside the proxy that its functions read or change. -/
structure World where
  /-- The worklet context returned by `getWorkletContext()`. -/
  workletContext : WorkletContext
  /-- The processor registry of the platform: bindings of view tags. -/
  registry : List (Int × JFrameProcessor)
  /-- Names registered in the plugin registry of the platform. -/
  plugins : List String
  /-- The process-wide array buffer cache. -/
  arrayBufferCache : List BufferCacheEntry
  /-- External calls made so far, oldest first. -/
  calls : List Call

/-- How a C++ call ends. -/
inductive Outcome (α : Type) where
  | ok (value : α)
  | thrown (e : Thrown)
  /-- The call ran into undefined behaviour (a read past the end of the
  argument array, or a conversion of an out-of-range number to `int`). -/
  | undefinedBehaviour

/-- Effectful computations: a state transformer over `World` that records how
the call ended together with the world at that moment. -/
def M (α : Type) : Type := World → Outcome α × World

/-- Sequencing: a throw or undefined behaviour ends the computation. -/
def M.bind {α β : Type} (m : M α) (f : α → M β) : M β := fun w =>
  match m w with
  | (.ok a, w1) => f a w1
  | (.thrown e, w1) => (.thrown e, w1)
  | (.undefinedBehaviour, w1) => (.undefinedBehaviour, w1)

instance : Monad M where
  pure := fun a w => (.ok a, w)
  bind := M.bind

/-- The C++ statement `throw e`. -/
def raise {α : Type} (e : Thrown) : M α := fun w => (.thrown e, w)

/-- Undefined behaviour is reached. -/
def undefinedBehaviour {α : Type} : M α := fun w => (.undefinedBehaviour, w)

/-- Record an external call. -/
def record (c : Call) : M Unit := fun w => (.ok (), { w with calls := w.calls ++ [c] })

/-! ## JSI accessors (facebook::jsi) -/

/-- The test `jsi::Value::isString()`. -/
def JsValue.isString : JsValue → Bool
  | .string _ => true
  | _ => false

/-- The test `jsi::Value::isObject()`: every non-primitive value is an object. -/
def JsValue.isObject : JsValue → Bool
  | .object _ => true
  | .array _ => true
  | .function _ => true
  | .hostFunction _ _ _ => true
  | .hostObject _ => true
  | _ => false

/-- The accessor `jsi::Value::asNumber()`: throws unless the value is a number. -/
def JsValue.asNumber : JsValue → M Int
  | .number n => pure n
  | _ => raise (.collaborator "jsi::Value::asNumber")

/-- The accessor `jsi::Value::asString(runtime)` followed by `utf8(runtime)`:
throws unless the value is a string. -/
def JsValue.asString : JsValue → M String
  | .string s => pure s
  | _ => raise (.collaborator "jsi::Value::asString")

/-- The accessor `jsi::Value::asObject(runtime)`: throws unless the value is an object. -/
def JsValue.asObject (v : JsValue) : M JsValue :=
  if v.isObject then pure v else raise (.collaborator "jsi::Value::asObject")

/-- Look a key up in a property list; a missing property reads as undefined. -/
def lookupProperty (name : String) : List (String × JsValue) → JsValue
  | [] => .undefined
  | (key, value) :: rest => if key = name then value else lookupProperty name rest

/-- The accessor `jsi::Object::getProperty(runtime, name)`. Only plain objects
carry properties in this model. -/
def JsValue.getProperty (object : JsValue) (name : String) : JsValue :=
  match object with
  | .object props => lookupProperty name props
  | _ => .undefined

/-- The expression `arguments[i]` inside a host function that was called with
`arguments.length` arguments: reading at or past `count` is undefined behaviour. -/
def readArgument (arguments : List JsValue) (i : Nat) : M JsValue :=
  match arguments.get? i with
  | some v => pure v
  | none => undefinedBehaviour

/-- The conversion `static_cast<int>(viewTag)` of a number to a 32-bit `int`:
the identity on representable values, undefined behaviour otherwise. -/
def static_cast_int (viewTag : Int) : M Int :=
  if -2147483648 ≤ viewTag ∧ viewTag ≤ 2147483647 then pure viewTag else undefinedBehaviour

/-- The constructor `RNWorklet::JsiWorklet(runtime, value)` of the worklets
library (outside this repository): it wraps a JS function and throws when the
value is not a function. -/
def JsiWorklet.make : JsValue → M JsiWorklet
  | .function closure => pure ⟨closure⟩
  | _ => raise (.collaborator "RNWorklet::JsiWorklet")

/-! ## Collaborators of the proxy

The functions below live in other files of the repository (the Java proxy
binding, the frame processor binding, the argument marshaller and the typed
array cache). They are modelled from the specification. -/

/-- Modelled from the spec: the accessor `JVisionCameraProxy::getWorkletContext()`
(java-bindings); it hands out the worklet context the proxy borrows, which
exposes the main and the worklet execution context. -/
def JVisionCameraProxy.getWorkletContext : M WorkletContext := fun w =>
  (.ok w.workletContext, w)

/-- Modelled from the spec: the factory `JFrameProcessor::create(worklet, context)`
(java-bindings/JFrameProcessor); it constructs a native processor object from
the worklet closure bound to the worklet execution context. -/
def JFrameProcessor.create (worklet : JsiWorklet) (context : WorkletContext) :
    M JFrameProcessor := do
  record (.createFrameProcessor worklet context)
  pure ⟨worklet, context⟩

/-- Modelled from the spec: the registry operation behind
`JVisionCameraProxy::setFrameProcessor(viewTag, frameProcessor)`; the registry
is a mapping keyed by view identity, and set overwrites: the new binding
replaces any prior binding for that key. -/
def registrySet (viewTag : Int) (frameProcessor : JFrameProcessor)
    (registry : List (Int × JFrameProcessor)) : List (Int × JFrameProcessor) :=
  (viewTag, frameProcessor) :: registry.filter (fun binding => binding.1 != viewTag)

/-- Modelled from the spec: the registry operation behind
`JVisionCameraProxy::removeFrameProcessor(viewTag)`; remove deletes the
binding for the key if present and is a no-op if absent. -/
def registryRemove (viewTag : Int)
    (registry : List (Int × JFrameProcessor)) : List (Int × JFrameProcessor) :=
  registry.filter (fun binding => binding.1 != viewTag)

/-- The bindings a registry holds for one view tag. -/
def bindingsOf (viewTag : Int)
    (registry : List (Int × JFrameProcessor)) : List (Int × JFrameProcessor) :=
  registry.filter (fun binding => binding.1 == viewTag)

/-- Modelled from the spec: the platform call
`JVisionCameraProxy::setFrameProcessor(viewTag, frameProcessor)` (java-bindings),
a synchronous call that installs the processor into the processor registry. -/
def JVisionCameraProxy.setFrameProcessor (viewTag : Int) (frameProcessor : JFrameProcessor) :
    M Unit := fun w =>
  (.ok (), { w with
    registry := registrySet viewTag frameProcessor w.registry
    calls := w.calls ++ [.setFrameProcessor viewTag frameProcessor] })

/-- Modelled from the spec: the platform call
`JVisionCameraProxy::removeFrameProcessor(viewTag)` (java-bindings), a
synchronous call that removes the binding of the view tag; not an error when
there is none. -/
def JVisionCameraProxy.removeFrameProcessor (viewTag : Int) : M Unit := fun w =>
  (.ok (), { w with
    registry := registryRemove viewTag w.registry
    calls := w.calls ++ [.removeFrameProcessor viewTag] })

/-- Modelled from the spec: the plugin registry lookup of the platform; it
resolves the name and yields the plugin initialised with the options, or null
(`none`) if no plugin with that name is registered. -/
def resolvePlugin (plugins : List String) (name : String)
    (options : List (String × JniValue)) : Option JFrameProcessorPlugin :=
  if name ∈ plugins then some ⟨name, options⟩ else none

/-- Modelled from the spec: the platform call
`JVisionCameraProxy::getFrameProcessorPlugin(name, options)` (java-bindings),
a synchronous call returning a native plugin handle or null. -/
def JVisionCameraProxy.getFrameProcessorPlugin (name : String)
    (options : List (String × JniValue)) : M (Option JFrameProcessorPlugin) := fun w =>
  (.ok (resolvePlugin w.plugins name options),
    { w with calls := w.calls ++ [.getFrameProcessorPlugin name options] })

mutual
/-- Modelled from the spec: the argument marshaller (JSIJNIConversion), from a
scripting value to a platform value. It is total over null/undefined,
booleans, numbers, strings, sequences and string-keyed mappings (recursively)
and rejects (`none`) every other value, such as a function. Buffers are not
part of this value model. -/
def marshalValue : JsValue → Option JniValue
  | .undefined => some .null
  | .null => some .null
  | .bool b => some (.bool b)
  | .number n => some (.number n)
  | .string s => some (.string s)
  | .object props => (marshalProps props).map JniValue.map
  | .array items => (marshalItems items).map JniValue.list
  | .function _ => none
  | .hostFunction _ _ _ => none
  | .hostObject _ => none
/-- Modelled from the spec: the marshaller on the entries of a mapping. -/
def marshalProps : List (String × JsValue) → Option (List (String × JniValue))
  | [] => some []
  | (key, value) :: rest =>
    match marshalValue value, marshalProps rest with
    | some v, some r => some ((key, v) :: r)
    | _, _ => none
/-- Modelled from the spec: the marshaller on the items of a sequence. -/
def marshalItems : List JsValue → Option (List JniValue)
  | [] => some []
  | value :: rest =>
    match marshalValue value, marshalItems rest with
    | some v, some r => some (v :: r)
    | _, _ => none
end

/-- Modelled from the spec: the marshaller on an options object,
`JSIJNIConversion::convertJSIObjectToJNIMap(runtime, object)`; the properties
of a mapping (a plain object) are marshalled into a map; any other value, and
any mapping holding a value the marshaller rejects, fails with a marshalling
error. -/
def optionsMap : JsValue → Option (List (String × JniValue))
  | .object props => marshalProps props
  | _ => none

/-- Modelled from the spec: see `optionsMap`. -/
def JSIJNIConversion.convertJSIObjectToJNIMap (object : JsValue) :
    M (List (String × JniValue)) := do
  record (.convertJSIObjectToJNIMap object)
  match optionsMap object with
  | some options => pure options
  | none => raise (.collaborator "JSIJNIConversion::convertJSIObjectToJNIMap")

/-- Modelled from the spec: the cache operation behind
`invalidateArrayBufferCache(runtime)` (JSITypedArray); it drops every entry
scoped to that execution context and keeps the entries of all others. -/
def cacheInvalidateAll (runtime : Nat) (cache : List BufferCacheEntry) : List BufferCacheEntry :=
  cache.filter (fun entry => entry.runtime != runtime)

/-- Modelled from the spec: retrieval of a cached wrapper, the hit case of
`getOrCreate(context, bufferIdentity)`; it only ever returns an entry created
under the same context. -/
def cacheFind (runtime : Nat) (buffer : Nat) (cache : List BufferCacheEntry) : Option Nat :=
  (cache.find? (fun entry => entry.runtime == runtime && entry.buffer == buffer)).map
    BufferCacheEntry.wrapper

/-- Modelled from the spec: the call `invalidateArrayBufferCache(runtime)` (JSITypedArray). -/
def invalidateArrayBufferCache (runtime : Nat) : M Unit := fun w =>
  (.ok (), { w with
    arrayBufferCache := cacheInvalidateAll runtime w.arrayBufferCache
    calls := w.calls ++ [.invalidateArrayBufferCache runtime] })

/-- The call `__android_log_write(ANDROID_LOG_INFO, TAG, text)` of the NDK. -/
def android_log_write (tag : String) (text : String) : M Unit :=
  record (.androidLog tag text)

/-! ## VisionCameraProxy -/

/-- The destructor `VisionCameraProxy::~VisionCameraProxy()` (lines 30-36).
The log tag `TAG` is declared in the header and taken as a parameter. -/
def VisionCameraProxy.destructor (TAG : String) : M Unit := do
  android_log_write TAG "Destroying Context..."
  let workletContext ← JVisionCameraProxy.getWorkletContext
  invalidateArrayBufferCache workletContext.jsRuntime
  invalidateArrayBufferCache workletContext.workletRuntime

/-- The method `VisionCameraProxy::getPropertyNames` (lines 38-45). -/
def VisionCameraProxy.getPropertyNames : List String :=
  let result : List String := []
  let result := result ++ ["setFrameProcessor"]
  let result := result ++ ["removeFrameProcessor"]
  let result := result ++ ["getFrameProcessorPlugin"]
  let result := result ++ ["isSkiaEnabled"]
  result

/-- The method `VisionCameraProxy::setFrameProcessor(viewTag, runtime, object)`
(lines 47-66), compiled under the build configuration `skia`. -/
def VisionCameraProxy.setFrameProcessor (skia : SkiaMacro) (viewTag : Int) (object : JsValue) :
    M Unit := do
  let frameProcessorType ← (object.getProperty "type").asString
  let worklet ← JsiWorklet.make (object.getProperty "frameProcessor")
  let workletContext ← JVisionCameraProxy.getWorkletContext
  let frameProcessor ←
    if frameProcessorType = "frame-processor" then
      JFrameProcessor.create worklet workletContext
    else if frameProcessorType = "skia-frame-processor" then
      if skia.ifNonZero then
        raise (.runtime_error "system/skia-unavailable: Skia is not yet implemented on Android!")
      else
        raise (.runtime_error "system/skia-unavailable: Skia is not installed!")
    else
      raise (.runtime_error ("Unknown FrameProcessor.type passed! Received: " ++ frameProcessorType))
  JVisionCameraProxy.setFrameProcessor viewTag frameProcessor

/-- The method `VisionCameraProxy::removeFrameProcessor(viewTag)` (lines 68-70). -/
def VisionCameraProxy.removeFrameProcessor (viewTag : Int) : M Unit :=
  JVisionCameraProxy.removeFrameProcessor viewTag

/-- The method `VisionCameraProxy::getFrameProcessorPlugin(runtime, name, jsOptions)`
(lines 72-81). -/
def VisionCameraProxy.getFrameProcessorPlugin (name : String) (jsOptions : JsValue) :
    M JsValue := do
  let options ← JSIJNIConversion.convertJSIObjectToJNIMap jsOptions
  let plugin ← JVisionCameraProxy.getFrameProcessorPlugin name options
  let pluginHostObject : FrameProcessorPluginHostObject := ⟨plugin⟩
  pure (.hostObject pluginHostObject)

/-- The method `VisionCameraProxy::get(runtime, propName)` (lines 83-139),
compiled under the build configuration `skia`; `name` is `propName.utf8(runtime)`. -/
def VisionCameraProxy.get (skia : SkiaMacro) (name : String) : JsValue :=
  if name = "isSkiaEnabled" then
    if skia.ifdef then .bool true else .bool false
  else if name = "setFrameProcessor" then
    .hostFunction "setFrameProcessor" 1 .setFrameProcessor
  else if name = "removeFrameProcessor" then
    .hostFunction "removeFrameProcessor" 1 .removeFrameProcessor
  else if name = "getFrameProcessorPlugin" then
    .hostFunction "getFrameProcessorPlugin" 1 .getFrameProcessorPlugin
  else
    .undefined

/-- Bodies of the host functions created in `VisionCameraProxy::get`, called
with the argument array `arguments` and `count = arguments.length`
(lines 97-105, 111-118 and 124-135). -/
def HostFunctionBody.call (skia : SkiaMacro) (body : HostFunctionBody)
    (arguments : List JsValue) : M JsValue :=
  let count := arguments.length
  match body with
  | .setFrameProcessor => do
    let viewTag ← (readArgument arguments 0).bind JsValue.asNumber
    let object ← (readArgument arguments 1).bind JsValue.asObject
    let tag ← static_cast_int viewTag
    VisionCameraProxy.setFrameProcessor skia tag object
    pure .undefined
  | .removeFrameProcessor => do
    let viewTag ← (readArgument arguments 0).bind JsValue.asNumber
    let tag ← static_cast_int viewTag
    VisionCameraProxy.removeFrameProcessor tag
    pure .undefined
  | .getFrameProcessorPlugin => do
    let invalid ←
      if count < 1 then pure true
      else (readArgument arguments 0).bind (fun first => pure (!first.isString))
    if invalid then
      raise (.JSError "First argument needs to be a string (pluginName)!")
    else
      let pluginName ← (readArgument arguments 0).bind JsValue.asString
      let options ←
        if count > 1 then (readArgument arguments 1).bind JsValue.asObject
        else pure (JsValue.object [])
      VisionCameraProxy.getFrameProcessorPlugin pluginName options

/-- The descriptor object `{type: t, frameProcessor: f}` with `f` a JS function. -/
def descriptor (t : String) (f : Nat) : JsValue :=
  .object [("type", .string t), ("frameProcessor", .function f)]

/-- A world used to evaluate the definitions on concrete inputs: view 3 is
bound, one plugin is registered, and the cache holds wrappers of the main
context (1), the worklet context (2) and an unrelated context (9). -/
def sampleWorld : World where
  workletContext := ⟨1, 2⟩
  registry := [(3, ⟨⟨5⟩, ⟨1, 2⟩⟩)]
  plugins := ["scanQR"]
  arrayBufferCache := [⟨1, 10, 100⟩, ⟨2, 11, 101⟩, ⟨9, 12, 102⟩]
  calls := []

/-! ## Basic facts about the monad -/

theorem M.bind_eq {α β : Type} (m : M α) (f : α → M β) : (m >>= f) = M.bind m f := rfl

theorem M.pure_eq {α : Type} (a : α) : (pure a : M α) = fun w => (Outcome.ok a, w) := rfl

theorem registryRemove_of_absent (viewTag : Int) (registry : List (Int × JFrameProcessor))
    (h : bindingsOf viewTag registry = []) : registryRemove viewTag registry = registry := by
  unfold registryRemove
  unfold bindingsOf at h
  rw [List.filter_eq_self]
  rw [List.filter_eq_nil_iff] at h
  intro binding hmem
  have := h binding hmem
  simpa using this

theorem bindingsOf_registrySet (viewTag : Int) (p : JFrameProcessor)
    (registry : List (Int × JFrameProcessor)) :
    bindingsOf viewTag (registrySet viewTag p registry) = [(viewTag, p)] := by
  unfold bindingsOf registrySet
  rw [List.filter_cons]
  simp only [beq_self_eq_true, if_true, List.filter_filter]
  congr 1
  rw [List.filter_eq_nil_iff]
  intro binding _
  by_cases hb : binding.1 = viewTag <;> simp [hb]

theorem getFrameProcessorPlugin_outcome (name : String) (jsOptions : JsValue) (w : World) :
    (∃ plugin, (VisionCameraProxy.getFrameProcessorPlugin name jsOptions w).1
        = .ok (.hostObject ⟨plugin⟩))
      ∨ (VisionCameraProxy.getFrameProcessorPlugin name jsOptions w).1
        = .thrown (.collaborator "JSIJNIConversion::convertJSIObjectToJNIMap") := by
  cases hm : optionsMap jsOptions with
  | none =>
    right
    simp [VisionCameraProxy.getFrameProcessorPlugin, JSIJNIConversion.convertJSIObjectToJNIMap,
      record, hm, M.bind_eq, M.bind, raise]
  | some options =>
    left
    refine ⟨resolvePlugin w.plugins name options, ?_⟩
    simp [VisionCameraProxy.getFrameProcessorPlugin, JSIJNIConversion.convertJSIObjectToJNIMap,
      JVisionCameraProxy.getFrameProcessorPlugin, record, hm, M.bind_eq, M.pure_eq, M.bind]

theorem getFrameProcessorPlugin_host_one_argument (skia : SkiaMacro) (name : String)
    (w : World) :
    HostFunctionBody.call skia .getFrameProcessorPlugin [.string name] w
      = VisionCameraProxy.getFrameProcessorPlugin name (.object []) w := by
  simp [HostFunctionBody.call, readArgument, JsValue.isString, JsValue.asString, M.bind_eq,
    M.pure_eq, M.bind]

theorem getFrameProcessorPlugin_host_more_arguments (skia : SkiaMacro) (name : String)
    (second : JsValue) (more : List JsValue) (w : World) :
    HostFunctionBody.call skia .getFrameProcessorPlugin (.string name :: second :: more) w
      = ((JsValue.asObject second).bind (VisionCameraProxy.getFrameProcessorPlugin name)) w := by
  simp [HostFunctionBody.call, readArgument, JsValue.isString, JsValue.asString, M.bind_eq,
    M.pure_eq, M.bind]

theorem setFrameProcessor_frame_processor (skia : SkiaMacro) (viewTag : Int) (f : Nat)
    (w : World) :
    VisionCameraProxy.setFrameProcessor skia viewTag (descriptor "frame-processor" f) w
      = (.ok (), { w with
          registry := registrySet viewTag ⟨⟨f⟩, w.workletContext⟩ w.registry
          calls := w.calls ++ [.createFrameProcessor ⟨f⟩ w.workletContext,
            .setFrameProcessor viewTag ⟨⟨f⟩, w.workletContext⟩] }) := by
  simp [VisionCameraProxy.setFrameProcessor, descriptor, JsValue.getProperty, lookupProperty,
    JsValue.asString, JsiWorklet.make, JVisionCameraProxy.getWorkletContext,
    JFrameProcessor.create, JVisionCameraProxy.setFrameProcessor, record, M.bind_eq, M.pure_eq,
    M.bind]

theorem setFrameProcessor_host_in_range (skia : SkiaMacro) (viewTag : Int) (object : JsValue)
    (w : World) (hobject : object.isObject = true)
    (hrange : -2147483648 ≤ viewTag ∧ viewTag ≤ 2147483647) :
    HostFunctionBody.call skia .setFrameProcessor [.number viewTag, object] w
      = ((VisionCameraProxy.setFrameProcessor skia viewTag object).bind
          (fun _ => pure JsValue.undefined)) w := by
  simp [HostFunctionBody.call, readArgument, JsValue.asNumber, JsValue.asObject, hobject,
    static_cast_int, hrange, M.bind_eq, M.pure_eq, M.bind]

theorem removeFrameProcessor_host_in_range (skia : SkiaMacro) (viewTag : Int) (w : World)
    (hrange : -2147483648 ≤ viewTag ∧ viewTag ≤ 2147483647) :
    HostFunctionBody.call skia .removeFrameProcessor [.number viewTag] w
      = (.ok .undefined, (VisionCameraProxy.removeFrameProcessor viewTag w).2) := by
  simp [HostFunctionBody.call, readArgument, JsValue.asNumber, static_cast_int, hrange,
    VisionCameraProxy.removeFrameProcessor, JVisionCameraProxy.removeFrameProcessor, M.bind_eq,
    M.pure_eq, M.bind]

theorem cacheFind_invalidateAll (runtime : Nat) (buffer : Nat) (cache : List BufferCacheEntry) :
    cacheFind runtime buffer (cacheInvalidateAll runtime cache) = none := by
  unfold cacheFind cacheInvalidateAll
  rw [Option.map_eq_none', List.find?_eq_none]
  intro entry hmem
  have hne := (List.mem_filter.mp hmem).2
  simp at hne
  simp [hne]

theorem cacheFind_invalidateAll_other (runtime other : Nat) (buffer : Nat)
    (cache : List BufferCacheEntry) (h : cacheFind runtime buffer cache = none) :
    cacheFind runtime buffer (cacheInvalidateAll other cache) = none := by
  unfold cacheFind cacheInvalidateAll at *
  rw [Option.map_eq_none', List.find?_eq_none] at *
  intro entry hmem
  exact h entry (List.mem_filter.mp hmem).1

theorem destructor_eq (TAG : String) (w : World) :
    VisionCameraProxy.destructor TAG w
      = (.ok (), { w with
          arrayBufferCache := cacheInvalidateAll w.workletContext.workletRuntime
            (cacheInvalidateAll w.workletContext.jsRuntime w.arrayBufferCache)
          calls := w.calls ++ [.androidLog TAG "Destroying Context...",
            .invalidateArrayBufferCache w.workletContext.jsRuntime,
            .invalidateArrayBufferCache w.workletContext.workletRuntime] }) := by
  simp [VisionCameraProxy.destructor, android_log_write, record,
    JVisionCameraProxy.getWorkletContext, invalidateArrayBufferCache, M.bind_eq, M.bind]

/-! ## Theorems -/

/-- C2: for every view tag, every JS function f and every build configuration
of VISION_CAMERA_ENABLE_SKIA (undefined, defined as 0, defined as non-zero),
`VisionCameraProxy::setFrameProcessor` called with the descriptor
`{type: "skia-frame-processor", frameProcessor: f}` throws a
`std::runtime_error` whose message starts with "system/skia-unavailable"
(and goes on with the text chosen by `#if VISION_CAMERA_ENABLE_SKIA`); the world after the call is the world before it, hence
`JFrameProcessor::create` is not called (no call is recorded) and the
processor registry is unchanged. -/
theorem setFrameProcessor_skia_unavailable (skia : SkiaMacro) (viewTag : Int) (f : Nat)
    (w : World) :
    VisionCameraProxy.setFrameProcessor skia viewTag (descriptor "skia-frame-processor" f) w
      = (.thrown (.runtime_error ("system/skia-unavailable" ++
          (if skia.ifNonZero then ": Skia is not yet implemented on Android!"
            else ": Skia is not installed!"))), w) := by
  cases hs : skia.ifNonZero <;>
    simp [VisionCameraProxy.setFrameProcessor, descriptor, JsValue.getProperty, lookupProperty,
      JsValue.asString, JsiWorklet.make, JVisionCameraProxy.getWorkletContext, M.bind_eq,
      M.pure_eq, M.bind, raise, hs]

/-- C3, counterexample: in the sample world no plugin named "nonexistent" is
registered, so the platform lookup returns null; yet
`getFrameProcessorPlugin("nonexistent")`, through the method and through the
host function alike, returns a host object wrapping the null plugin reference,
which is neither undefined nor null. -/
theorem getFrameProcessorPlugin_unregistered_returns_host_object :
    resolvePlugin sampleWorld.plugins "nonexistent" [] = none ∧
    (VisionCameraProxy.getFrameProcessorPlugin "nonexistent" (.object []) sampleWorld).1
      = .ok (.hostObject ⟨none⟩) ∧
    (HostFunctionBody.call .notDefined .getFrameProcessorPlugin [.string "nonexistent"] sampleWorld).1
      = .ok (.hostObject ⟨none⟩) ∧
    (VisionCameraProxy.getFrameProcessorPlugin "nonexistent" (.object []) sampleWorld).1
      ≠ .ok .undefined ∧
    (VisionCameraProxy.getFrameProcessorPlugin "nonexistent" (.object []) sampleWorld).1
      ≠ .ok .null := by
  refine ⟨by simp [resolvePlugin, sampleWorld], rfl, rfl, ?_, ?_⟩
  · intro h
    have h2 : (Outcome.ok (JsValue.hostObject ⟨none⟩) : Outcome JsValue) = .ok .undefined := h
    cases h2
  · intro h
    have h2 : (Outcome.ok (JsValue.hostObject ⟨none⟩) : Outcome JsValue) = .ok .null := h
    cases h2

/-- C3, amended: for every plugin name and every options object that the
marshaller accepts, `getFrameProcessorPlugin(name, options)` does not throw
and returns a plugin host object wrapping whatever the platform lookup
returned: the resolved plugin when the name is registered and the null
reference when it is not. It never returns undefined or null. -/
theorem getFrameProcessorPlugin_wraps_lookup_result (name : String) (jsOptions : JsValue)
    (options : List (String × JniValue)) (w : World)
    (hmarshal : optionsMap jsOptions = some options) :
    (VisionCameraProxy.getFrameProcessorPlugin name jsOptions w).1
        = .ok (.hostObject ⟨resolvePlugin w.plugins name options⟩)
      ∧ (name ∈ w.plugins →
          (VisionCameraProxy.getFrameProcessorPlugin name jsOptions w).1
            = .ok (.hostObject ⟨some ⟨name, options⟩⟩))
      ∧ (name ∉ w.plugins →
          (VisionCameraProxy.getFrameProcessorPlugin name jsOptions w).1
            = .ok (.hostObject ⟨none⟩))
      ∧ (VisionCameraProxy.getFrameProcessorPlugin name jsOptions w).1 ≠ .ok .undefined
      ∧ (VisionCameraProxy.getFrameProcessorPlugin name jsOptions w).1 ≠ .ok .null := by
  have key : (VisionCameraProxy.getFrameProcessorPlugin name jsOptions w).1
      = .ok (.hostObject ⟨resolvePlugin w.plugins name options⟩) := by
    simp [VisionCameraProxy.getFrameProcessorPlugin, JSIJNIConversion.convertJSIObjectToJNIMap,
      JVisionCameraProxy.getFrameProcessorPlugin, record, hmarshal, M.bind_eq, M.pure_eq, M.bind]
  refine ⟨key, ?_, ?_, ?_, ?_⟩
  · intro hin
    rw [key]; simp [resolvePlugin, hin]
  · intro hout
    rw [key]; simp [resolvePlugin, hout]
  · rw [key]; intro h; cases h
  · rw [key]; intro h; cases h

/-- Witness of the amended C3: a registered plugin looked up with the options
`{a: 1, b: [true, "x"]}`. -/
theorem getFrameProcessorPlugin_wraps_lookup_result_witness :
    optionsMap (.object [("a", .number 1), ("b", .array [.bool true, .string "x"])])
        = some [("a", .number 1), ("b", .list [.bool true, .string "x"])]
      ∧ (VisionCameraProxy.getFrameProcessorPlugin "scanQR"
          (.object [("a", .number 1), ("b", .array [.bool true, .string "x"])]) sampleWorld).1
        = .ok (.hostObject ⟨resolvePlugin sampleWorld.plugins "scanQR"
            [("a", .number 1), ("b", .list [.bool true, .string "x"])]⟩) :=
  ⟨rfl, (getFrameProcessorPlugin_wraps_lookup_result "scanQR"
    (.object [("a", .number 1), ("b", .array [.bool true, .string "x"])])
    [("a", .number 1), ("b", .list [.bool true, .string "x"])] sampleWorld rfl).1⟩

/-- C4: the host function `getFrameProcessorPlugin` called with an argument
list that is empty or whose first argument is not a string throws the
`jsi::JSError` "First argument needs to be a string (pluginName)!" and leaves
the world as it was, so neither the option marshaller nor the platform plugin
lookup has been called. Called with a string first, it never throws that
error: with no further argument it behaves as the method called with the
empty options object, and with further arguments as the method called with
the second argument taken as an object. -/
theorem getFrameProcessorPlugin_host_first_argument (skia : SkiaMacro)
    (arguments : List JsValue) (w : World) :
    ((∀ first, arguments.head? = some first → first.isString = false) →
        HostFunctionBody.call skia .getFrameProcessorPlugin arguments w
          = (.thrown (.JSError "First argument needs to be a string (pluginName)!"), w))
      ∧ (∀ name rest, arguments = .string name :: rest →
          (HostFunctionBody.call skia .getFrameProcessorPlugin arguments w).1
              ≠ .thrown (.JSError "First argument needs to be a string (pluginName)!")
            ∧ (rest = [] →
                HostFunctionBody.call skia .getFrameProcessorPlugin arguments w
                  = VisionCameraProxy.getFrameProcessorPlugin name (.object []) w)
            ∧ (∀ second more, rest = second :: more →
                HostFunctionBody.call skia .getFrameProcessorPlugin arguments w
                  = ((JsValue.asObject second).bind
                      (VisionCameraProxy.getFrameProcessorPlugin name)) w)) := by
  constructor
  · intro h
    cases arguments with
    | nil =>
      simp [HostFunctionBody.call, M.bind_eq, M.pure_eq, M.bind, raise]
    | cons first rest =>
      have hfirst : first.isString = false := h first rfl
      simp [HostFunctionBody.call, readArgument, hfirst, M.bind_eq, M.pure_eq, M.bind, raise]
  · intro name rest harg
    subst harg
    refine ⟨?_, ?_, ?_⟩
    · cases rest with
      | nil =>
        rw [getFrameProcessorPlugin_host_one_argument]
        rcases getFrameProcessorPlugin_outcome name (.object []) w with ⟨plugin, h⟩ | h
          <;> rw [h] <;> intro hc <;> cases hc
      | cons second more =>
        rw [getFrameProcessorPlugin_host_more_arguments]
        cases hobj : second.isObject with
        | false =>
          simp [JsValue.asObject, hobj, M.bind, raise]
        | true =>
          have hrun : ((JsValue.asObject second).bind
              (VisionCameraProxy.getFrameProcessorPlugin name)) w
              = VisionCameraProxy.getFrameProcessorPlugin name second w := by
            simp [JsValue.asObject, hobj, M.bind, M.pure_eq]
          rw [hrun]
          rcases getFrameProcessorPlugin_outcome name second w with ⟨plugin, h⟩ | h
            <;> rw [h] <;> intro hc <;> cases hc
    · intro hrest
      subst hrest
      exact getFrameProcessorPlugin_host_one_argument skia name w
    · intro second more hrest
      subst hrest
      exact getFrameProcessorPlugin_host_more_arguments skia name second more w

/-- Witness of C4: the empty argument list, a number as first argument, and a
plugin name alone. -/
theorem getFrameProcessorPlugin_host_first_argument_witness :
    HostFunctionBody.call .notDefined .getFrameProcessorPlugin [] sampleWorld
        = (.thrown (.JSError "First argument needs to be a string (pluginName)!"), sampleWorld)
      ∧ HostFunctionBody.call .notDefined .getFrameProcessorPlugin [.number 4, .object []] sampleWorld
        = (.thrown (.JSError "First argument needs to be a string (pluginName)!"), sampleWorld)
      ∧ (HostFunctionBody.call .notDefined .getFrameProcessorPlugin [.string "scanQR"] sampleWorld).1
        ≠ .thrown (.JSError "First argument needs to be a string (pluginName)!") :=
  ⟨(getFrameProcessorPlugin_host_first_argument .notDefined [] sampleWorld).1
      (by intro first h; cases h),
    (getFrameProcessorPlugin_host_first_argument .notDefined [.number 4, .object []] sampleWorld).1
      (by intro first h; cases h; rfl),
    ((getFrameProcessorPlugin_host_first_argument .notDefined [.string "scanQR"] sampleWorld).2
      "scanQR" [] rfl).1⟩

/-- C5: for every view tag and every pair of JS functions f1 and f2, calling
`setFrameProcessor(viewTag, {type: "frame-processor", frameProcessor: f1})`
and then the same with f2 succeeds both times and leaves the processor
registry with exactly one binding for the view tag, the processor built from
f2. This holds for the method with any `int` view tag and for the host
function with any view tag representable as an `int`. -/
theorem setFrameProcessor_twice_keeps_second (skia : SkiaMacro) (viewTag : Int) (f1 f2 : Nat)
    (w : World) :
    ((VisionCameraProxy.setFrameProcessor skia viewTag (descriptor "frame-processor" f1) w).1
        = .ok ()
      ∧ (VisionCameraProxy.setFrameProcessor skia viewTag (descriptor "frame-processor" f2)
          (VisionCameraProxy.setFrameProcessor skia viewTag
            (descriptor "frame-processor" f1) w).2).1 = .ok ()
      ∧ bindingsOf viewTag
          (VisionCameraProxy.setFrameProcessor skia viewTag (descriptor "frame-processor" f2)
            (VisionCameraProxy.setFrameProcessor skia viewTag
              (descriptor "frame-processor" f1) w).2).2.registry
          = [(viewTag, ⟨⟨f2⟩, w.workletContext⟩)])
    ∧ (-2147483648 ≤ viewTag ∧ viewTag ≤ 2147483647 →
        (HostFunctionBody.call skia .setFrameProcessor
            [.number viewTag, descriptor "frame-processor" f1] w).1 = .ok .undefined
        ∧ (HostFunctionBody.call skia .setFrameProcessor
            [.number viewTag, descriptor "frame-processor" f2]
            (HostFunctionBody.call skia .setFrameProcessor
              [.number viewTag, descriptor "frame-processor" f1] w).2).1 = .ok .undefined
        ∧ bindingsOf viewTag
            (HostFunctionBody.call skia .setFrameProcessor
              [.number viewTag, descriptor "frame-processor" f2]
              (HostFunctionBody.call skia .setFrameProcessor
                [.number viewTag, descriptor "frame-processor" f1] w).2).2.registry
            = [(viewTag, ⟨⟨f2⟩, w.workletContext⟩)]) := by
  constructor
  · simp only [setFrameProcessor_frame_processor]
    exact ⟨trivial, trivial, bindingsOf_registrySet _ _ _⟩
  · intro hrange
    have hobj : ∀ f, (descriptor "frame-processor" f).isObject = true := fun _ => rfl
    simp only [setFrameProcessor_host_in_range skia viewTag _ _ (hobj _) hrange, M.bind,
      setFrameProcessor_frame_processor, M.pure_eq]
    exact ⟨trivial, trivial, bindingsOf_registrySet _ _ _⟩

/-- Witness of C5: view 3, already bound in the sample world, is set twice
through the host function. -/
theorem setFrameProcessor_twice_keeps_second_witness :
    ((-2147483648 : Int) ≤ 3 ∧ (3 : Int) ≤ 2147483647) ∧
    bindingsOf 3
      (HostFunctionBody.call .notDefined .setFrameProcessor
        [.number 3, descriptor "frame-processor" 8]
        (HostFunctionBody.call .notDefined .setFrameProcessor
          [.number 3, descriptor "frame-processor" 7] sampleWorld).2).2.registry
      = [(3, ⟨⟨8⟩, sampleWorld.workletContext⟩)] :=
  ⟨by decide,
    ((setFrameProcessor_twice_keeps_second .notDefined 3 7 8 sampleWorld).2 (by decide)).2.2⟩

/-- C6: for every registry state and every view tag that has no binding in
it, `removeFrameProcessor(viewTag)` completes without raising an error and
leaves the processor registry equal to the registry before the call; the host
function, for a view tag representable as an `int`, returns undefined. -/
theorem removeFrameProcessor_absent_is_noop (skia : SkiaMacro) (viewTag : Int) (w : World)
    (habsent : bindingsOf viewTag w.registry = []) :
    (VisionCameraProxy.removeFrameProcessor viewTag w).1 = .ok ()
      ∧ (VisionCameraProxy.removeFrameProcessor viewTag w).2.registry = w.registry
      ∧ (-2147483648 ≤ viewTag ∧ viewTag ≤ 2147483647 →
          (HostFunctionBody.call skia .removeFrameProcessor [.number viewTag] w).1
              = .ok .undefined
            ∧ (HostFunctionBody.call skia .removeFrameProcessor [.number viewTag] w).2.registry
              = w.registry) := by
  have hmethod : (VisionCameraProxy.removeFrameProcessor viewTag w).2.registry = w.registry := by
    simp [VisionCameraProxy.removeFrameProcessor, JVisionCameraProxy.removeFrameProcessor,
      registryRemove_of_absent viewTag w.registry habsent]
  refine ⟨rfl, hmethod, ?_⟩
  intro hrange
  rw [removeFrameProcessor_host_in_range skia viewTag w hrange]
  exact ⟨rfl, hmethod⟩

/-- Witness of C6: view 4 has no binding in the sample world. -/
theorem removeFrameProcessor_absent_is_noop_witness :
    bindingsOf 4 sampleWorld.registry = [] ∧
    (HostFunctionBody.call .notDefined .removeFrameProcessor [.number 4] sampleWorld).1
      = .ok .undefined ∧
    (HostFunctionBody.call .notDefined .removeFrameProcessor [.number 4] sampleWorld).2.registry
      = sampleWorld.registry :=
  ⟨by decide,
    ((removeFrameProcessor_absent_is_noop .notDefined 4 sampleWorld (by decide)).2.2 (by decide)).1,
    ((removeFrameProcessor_absent_is_noop .notDefined 4 sampleWorld (by decide)).2.2 (by decide)).2⟩

/-- C7: `VisionCameraProxy::get` returns a value other than undefined exactly
for the names returned by `VisionCameraProxy::getPropertyNames`; these are
the four names setFrameProcessor, removeFrameProcessor,
getFrameProcessorPlugin and isSkiaEnabled, each listed once. For every other
name `get` returns undefined (it is a total function and throws nowhere). -/
theorem get_defined_iff_listed (skia : SkiaMacro) (name : String) :
    (VisionCameraProxy.get skia name ≠ .undefined ↔ name ∈ VisionCameraProxy.getPropertyNames)
      ∧ (name ∉ VisionCameraProxy.getPropertyNames → VisionCameraProxy.get skia name = .undefined)
      ∧ VisionCameraProxy.getPropertyNames
          = ["setFrameProcessor", "removeFrameProcessor", "getFrameProcessorPlugin",
              "isSkiaEnabled"]
      ∧ VisionCameraProxy.getPropertyNames.Nodup := by
  have hiff : VisionCameraProxy.get skia name ≠ .undefined
      ↔ name ∈ VisionCameraProxy.getPropertyNames := by
    unfold VisionCameraProxy.get VisionCameraProxy.getPropertyNames
    by_cases h1 : name = "isSkiaEnabled"
    · subst h1
      cases skia.ifdef <;> simp
    · by_cases h2 : name = "setFrameProcessor"
      · subst h2; simp
      · by_cases h3 : name = "removeFrameProcessor"
        · subst h3; simp
        · by_cases h4 : name = "getFrameProcessorPlugin"
          · subst h4; simp
          · simp [h1, h2, h3, h4]
  refine ⟨hiff, ?_, rfl, by decide⟩
  intro hnot
  by_contra hne
  exact hnot (hiff.mp hne)

/-- Witness of C7: the name "toString" is not listed and reads as undefined. -/
theorem get_defined_iff_listed_witness :
    "toString" ∉ VisionCameraProxy.getPropertyNames ∧
    VisionCameraProxy.get (.defined 1) "toString" = .undefined :=
  ⟨by decide, (get_defined_iff_listed (.defined 1) "toString").2.1 (by decide)⟩

/-- C8: for every state of the array buffer cache, the destructor of
`VisionCameraProxy` applies `invalidateArrayBufferCache` once to the main (JS)
runtime and once to the worklet runtime, in this order and after the log
line; afterwards the cache holds no entry of either runtime, so no cached
wrapper of either context can be retrieved, while entries of other runtimes
are kept. -/
theorem destructor_invalidates_both_runtimes (TAG : String) (w : World) :
    (VisionCameraProxy.destructor TAG w).1 = .ok ()
      ∧ (VisionCameraProxy.destructor TAG w).2.calls
          = w.calls ++ [.androidLog TAG "Destroying Context...",
              .invalidateArrayBufferCache w.workletContext.jsRuntime,
              .invalidateArrayBufferCache w.workletContext.workletRuntime]
      ∧ (∀ entry ∈ (VisionCameraProxy.destructor TAG w).2.arrayBufferCache,
          entry.runtime ≠ w.workletContext.jsRuntime
            ∧ entry.runtime ≠ w.workletContext.workletRuntime)
      ∧ (∀ buffer, cacheFind w.workletContext.jsRuntime buffer
          (VisionCameraProxy.destructor TAG w).2.arrayBufferCache = none)
      ∧ (∀ buffer, cacheFind w.workletContext.workletRuntime buffer
          (VisionCameraProxy.destructor TAG w).2.arrayBufferCache = none)
      ∧ (∀ entry ∈ w.arrayBufferCache,
          entry.runtime ≠ w.workletContext.jsRuntime →
          entry.runtime ≠ w.workletContext.workletRuntime →
          entry ∈ (VisionCameraProxy.destructor TAG w).2.arrayBufferCache) := by
  rw [destructor_eq]
  refine ⟨rfl, rfl, ?_, ?_, ?_, ?_⟩
  · intro entry hmem
    simp only [cacheInvalidateAll, List.mem_filter] at hmem
    obtain ⟨⟨_, hjs⟩, hworklet⟩ := hmem
    exact ⟨by simpa using hjs, by simpa using hworklet⟩
  · intro buffer
    exact cacheFind_invalidateAll_other _ _ _ _ (cacheFind_invalidateAll _ _ _)
  · intro buffer
    exact cacheFind_invalidateAll _ _ _
  · intro entry hmem hjs hworklet
    simp only [cacheInvalidateAll, List.mem_filter]
    exact ⟨⟨hmem, by simpa using hjs⟩, by simpa using hworklet⟩

/-- Witness of C8: in the sample world the destructor leaves only the entry
of the unrelated runtime 9 in the cache. -/
theorem destructor_invalidates_both_runtimes_witness :
    (VisionCameraProxy.destructor "VisionCameraProxy" sampleWorld).2.arrayBufferCache
        = [⟨9, 12, 102⟩]
      ∧ cacheFind 1 10 sampleWorld.arrayBufferCache = some 100
      ∧ cacheFind 1 10
          (VisionCameraProxy.destructor "VisionCameraProxy" sampleWorld).2.arrayBufferCache
        = none :=
  ⟨by decide, by decide,
    (destructor_invalidates_both_runtimes "VisionCameraProxy" sampleWorld).2.2.2.1 10⟩

/-- C9, the code at the failing inputs: the host functions `setFrameProcessor`
and `removeFrameProcessor` do not test `count`. Called with no argument both
read `arguments[0]` past the end of the argument array, and
`setFrameProcessor` called with a number alone reads `arguments[1]` past the
end; in each case the call runs into undefined behaviour instead of throwing
an error. -/
theorem host_functions_read_missing_arguments (skia : SkiaMacro) (viewTag : Int) (w : World) :
    HostFunctionBody.call skia .removeFrameProcessor [] w = (.undefinedBehaviour, w)
      ∧ HostFunctionBody.call skia .setFrameProcessor [] w = (.undefinedBehaviour, w)
      ∧ HostFunctionBody.call skia .setFrameProcessor [.number viewTag] w
          = (.undefinedBehaviour, w)
      ∧ (∀ e, (HostFunctionBody.call skia .removeFrameProcessor [] w).1 ≠ .thrown e) := by
  refine ⟨?_, ?_, ?_, ?_⟩
  · simp [HostFunctionBody.call, readArgument, undefinedBehaviour, M.bind_eq, M.bind]
  · simp [HostFunctionBody.call, readArgument, undefinedBehaviour, M.bind_eq, M.bind]
  · simp [HostFunctionBody.call, readArgument, undefinedBehaviour, JsValue.asNumber, M.bind_eq,
      M.pure_eq, M.bind]
  · intro e
    simp [HostFunctionBody.call, readArgument, undefinedBehaviour, M.bind_eq, M.bind]

/-- C10, the code at the failing input: when VISION_CAMERA_ENABLE_SKIA is
defined as 0, `#ifdef` (line 87) holds and `#if` (line 56) does not, so
reading isSkiaEnabled gives true while `setFrameProcessor` with the type
"skia-frame-processor" fails with "Skia is not installed!". In the two other
configurations the flag and the message agree. -/
theorem isSkiaEnabled_disagrees_when_defined_as_zero (viewTag : Int) (f : Nat) (w : World) :
    VisionCameraProxy.get (.defined 0) "isSkiaEnabled" = .bool true
      ∧ VisionCameraProxy.setFrameProcessor (.defined 0) viewTag
          (descriptor "skia-frame-processor" f) w
        = (.thrown (.runtime_error "system/skia-unavailable: Skia is not installed!"), w)
      ∧ VisionCameraProxy.get .notDefined "isSkiaEnabled" = .bool false
      ∧ VisionCameraProxy.setFrameProcessor .notDefined viewTag
          (descriptor "skia-frame-processor" f) w
        = (.thrown (.runtime_error "system/skia-unavailable: Skia is not installed!"), w)
      ∧ VisionCameraProxy.get (.defined 1) "isSkiaEnabled" = .bool true
      ∧ VisionCameraProxy.setFrameProcessor (.defined 1) viewTag
          (descriptor "skia-frame-processor" f) w
        = (.thrown (.runtime_error
            "system/skia-unavailable: Skia is not yet implemented on Android!"), w) := by
  refine ⟨rfl, ?_, rfl, ?_, rfl, ?_⟩ <;>
    simp [VisionCameraProxy.setFrameProcessor, descriptor, JsValue.getProperty, lookupProperty,
      JsValue.asString, JsiWorklet.make, JVisionCameraProxy.getWorkletContext, M.bind_eq,
      M.pure_eq, M.bind, raise, SkiaMacro.ifNonZero]

end vision
